import Mathlib

/-!
Verification model of `backend/utils/db_handler.py` from the Askage
repository: a MongoDB persistence and authorization layer for a
browser-extension assistant.  Collections are modelled as Lean lists of
documents, BSON ObjectIds as natural numbers rendered to and parsed from
24-character hexadecimal strings, randomness (`secrets.token_hex`) as an
explicit token supply in the state, and Python exceptions as `Except`
errors.  `find_one` returns the first matching document of the
collection and `update_one` rewrites the first matching document, as in
MongoDB.
-/

namespace Askage

/-- Hexadecimal digit character for a value below 16 (lowercase, as
produced by `str(ObjectId)`). -/
def natToHexDigit (n : Nat) : Char :=
  if n < 10 then Char.ofNat (48 + n) else Char.ofNat (87 + n)

/-- Value of a hexadecimal digit character; `none` when the character is
not a hex digit.  Accepts both cases, as `bson.ObjectId` does. -/
def hexDigitToNat (c : Char) : Option Nat :=
  if 48 ≤ c.toNat ∧ c.toNat ≤ 57 then some (c.toNat - 48)
  else if 97 ≤ c.toNat ∧ c.toNat ≤ 102 then some (c.toNat - 87)
  else if 65 ≤ c.toNat ∧ c.toNat ≤ 70 then some (c.toNat - 55)
  else none

/-- The `k` least-significant hex digits of `n`, least significant first. -/
def natToHexDigitsLE : Nat → Nat → List Char
  | 0, _ => []
  | k + 1, n => natToHexDigit (n % 16) :: natToHexDigitsLE k (n / 16)

/-- Parse a list of hex digit characters, least significant first. -/
def parseHexLE : List Char → Option Nat
  | [] => some 0
  | c :: cs =>
    match hexDigitToNat c, parseHexLE cs with
    | some d, some m => some (d + 16 * m)
    | _, _ => none

/-- Model of `str(ObjectId)`: render an id as a 24-character hex string. -/
def oidToString (n : Nat) : String := String.mk (natToHexDigitsLE 24 n)

/-- Model of the `bson.ObjectId(s)` constructor on a string argument: it
succeeds exactly on 24-character hexadecimal strings and raises
`InvalidId` otherwise. -/
def oidFromString (s : String) : Option Nat :=
  if s.length = 24 then parseHexLE s.data else none

theorem hexDigit_roundtrip : ∀ d < 16, hexDigitToNat (natToHexDigit d) = some d := by
  decide

theorem length_natToHexDigitsLE (k n : Nat) : (natToHexDigitsLE k n).length = k := by
  induction k generalizing n with
  | zero => rfl
  | succ k ih => simp [natToHexDigitsLE, ih]

theorem parseHexLE_natToHexDigitsLE (k n : Nat) :
    parseHexLE (natToHexDigitsLE k n) = some (n % 16 ^ k) := by
  induction k generalizing n with
  | zero => simp [natToHexDigitsLE, parseHexLE, Nat.mod_one]
  | succ k ih =>
    have hd : hexDigitToNat (natToHexDigit (n % 16)) = some (n % 16) :=
      hexDigit_roundtrip _ (Nat.mod_lt _ (by norm_num))
    simp only [natToHexDigitsLE, parseHexLE, hd, ih]
    congr 1
    rw [pow_succ', Nat.mod_mul]

/-- Rendering an ObjectId and parsing it back is the identity on ids below
`16 ^ 24`. -/
theorem oidFromString_oidToString (n : Nat) (h : n < 16 ^ 24) :
    oidFromString (oidToString n) = some n := by
  have hlen : (oidToString n).length = 24 := length_natToHexDigitsLE 24 n
  have hdata : (oidToString n).data = natToHexDigitsLE 24 n := rfl
  rw [oidFromString, if_pos hlen, hdata, parseHexLE_natToHexDigitsLE,
    Nat.mod_eq_of_lt h]

/-- A document of the `users` collection:
`{ _id, google_sub, email, session_token }`.  The `session_token` field is
optional (`find_one` documents may lack it; `verify_auth_token` reads it
with `.get("session_token", "")`). -/
structure UserDoc where
  _id : Nat
  google_sub : String
  email : String
  session_token : Option String
  deriving DecidableEq, Repr

/-- One entry of a conversation history: `{role, content}`. -/
structure Message where
  role : String
  content : String
  deriving DecidableEq, Repr

/-- A document of the `conversations` collection:
`{ _id, user_id, history, prompt_suggestions }`.  Note that `user_id` is
stored as a plain string, not an ObjectId. -/
structure ConversationDoc where
  _id : Nat
  user_id : String
  history : List Message
  prompt_suggestions : List String
  deriving DecidableEq, Repr

/-- State of the `askage` database together with the sources of
nondeterminism: `nextOid` feeds ObjectId generation for `insert_one`, and
`tokens`/`tokenCtr` model the stream of values produced by
`secrets.token_hex(16)`. -/
structure DBState where
  users : List UserDoc
  conversations : List ConversationDoc
  nextOid : Nat
  tokens : Nat → String
  tokenCtr : Nat

/-- Rewrite the first element of the list satisfying `p` using `f`
(MongoDB `update_one` semantics); the rest of the list is untouched. -/
def updateFirst (p : α → Bool) (f : α → α) : List α → List α
  | [] => []
  | x :: xs => if p x then f x :: xs else x :: updateFirst p f xs

/-- Model of `MongoHandler.generate_session_token`: draw the next value of
the token supply. -/
def generate_session_token (s : DBState) : String × DBState :=
  (s.tokens s.tokenCtr, { s with tokenCtr := s.tokenCtr + 1 })

/-- Model of `MongoHandler.register_google_user`.  Raises a bare
`Exception` when `google_sub` or `email` is empty (Python falsiness of
strings); otherwise generates a session token, looks the user up by
`google_sub`, updates `session_token` and `email` in place when found and
inserts a fresh user otherwise, returning the credential
`"<user_id>:<session_token>"`. -/
def register_google_user (s : DBState) (google_sub email : String) :
    Except String String × DBState :=
  if google_sub = "" ∨ email = "" then (.error "Exception", s)
  else
    let session_token := s.tokens s.tokenCtr
    let s1 : DBState := { s with tokenCtr := s.tokenCtr + 1 }
    match s1.users.find? (fun u => u.google_sub == google_sub) with
    | some existing_user =>
      (.ok (oidToString existing_user._id ++ ":" ++ session_token),
       { s1 with users :=
          (updateFirst (fun u => u._id == existing_user._id)
            (fun u => { u with session_token := some session_token, email := email })
            s1.users) })
    | none =>
      (.ok (oidToString s1.nextOid ++ ":" ++ session_token),
       { s1 with
          users := s1.users ++
            [{ _id := s1.nextOid, google_sub := google_sub, email := email,
               session_token := some session_token }],
          nextOid := s1.nextOid + 1 })

/-- The fixed system instruction inserted by `new_conversation`. -/
def systemInstruction : String :=
  "You are Askage, a Chrome extension that answers user questions based on webpage content. Always be polite, but reply with only the necessary information. Use minimal words, avoid complete sentences unless required. No explanations unless asked. Use plain text, no markdown or formatting. Paragraph form only. No bullet points, no lists."

/-- Model of `MongoHandler.new_conversation`: inserts a conversation owned
by `user_id`, seeded with the single fixed system message and the given
suggestions, and returns the new conversation id as a string.  The
`try/except` of the source only rewraps store I/O failures, which the
pure model does not have, so the operation is total here. -/
def new_conversation (s : DBState) (user_id : String) (suggestions : List String) :
    String × DBState :=
  (oidToString s.nextOid,
   { s with
      conversations := s.conversations ++
        [{ _id := s.nextOid, user_id := user_id,
           history := [{ role := "system", content := systemInstruction }],
           prompt_suggestions := suggestions }],
      nextOid := s.nextOid + 1 })

/-- Error message raised when a string is not a valid ObjectId
(`bson.errors.InvalidId`). -/
def invalidIdMsg (s : String) : String :=
  s ++ " is not a valid ObjectId, it must be a 12-byte input or a 24-character hex string"

/-- Error message raised by subscripting the `None` returned by a failed
`find_one` (`TypeError`). -/
def noneSubscriptMsg : String := "NoneType object is not subscriptable"

/-- Model of `MongoHandler.get_prompt_suggestions`: `find_one` filtered
simultaneously by `_id` and `user_id`; a malformed id or an unmatched
filter both raise and are rewrapped as a generic `MongoDB error`. -/
def get_prompt_suggestions (s : DBState) (user_id conversation_id : String) :
    Except String (List String) :=
  match oidFromString conversation_id with
  | none => .error ("MongoDB error: " ++ invalidIdMsg conversation_id)
  | some oid =>
    match s.conversations.find? (fun c => c._id == oid && c.user_id == user_id) with
    | none => .error ("MongoDB error: " ++ noneSubscriptMsg)
    | some result => .ok result.prompt_suggestions

/-- Model of `MongoHandler.get_chat_history`: same dual-filtered lookup as
`get_prompt_suggestions`, returning the `history` field. -/
def get_chat_history (s : DBState) (user_id conversation_id : String) :
    Except String (List Message) :=
  match oidFromString conversation_id with
  | none => .error ("MongoDB error: " ++ invalidIdMsg conversation_id)
  | some oid =>
    match s.conversations.find? (fun c => c._id == oid && c.user_id == user_id) with
    | none => .error ("MongoDB error: " ++ noneSubscriptMsg)
    | some result => .ok result.history

/-- Model of `MongoHandler.update_chat_history`: `update_one` with the
dual filter, replacing the `history` field of the first matching
document; returns `matched_count > 0`.  A malformed id raises and is
rewrapped. -/
def update_chat_history (s : DBState) (user_id conversation_id : String)
    (history : List Message) : Except String Bool × DBState :=
  match oidFromString conversation_id with
  | none => (.error ("MongoDB error: " ++ invalidIdMsg conversation_id), s)
  | some oid =>
    (.ok (s.conversations.any (fun c => c._id == oid && c.user_id == user_id)),
     { s with conversations :=
        (updateFirst (fun c => c._id == oid && c.user_id == user_id)
          (fun c => { c with history := history }) s.conversations) })

/-- Model of `MongoHandler.verify_auth_token`: look the user up by
`_id` and compare the stored `session_token` (defaulting to `""` when the
field is absent) with the presented one.  There is no `try/except` in the
source, so the `InvalidId` raised by `ObjectId(user_id)` on a malformed
`user_id` propagates to the caller. -/
def verify_auth_token (s : DBState) (user_id session_token : String) :
    Except String Bool :=
  match oidFromString user_id with
  | none => .error (invalidIdMsg user_id)
  | some oid =>
    match s.users.find? (fun u => u._id == oid) with
    | none => .ok false
    | some user_doc => .ok (user_doc.session_token.getD "" == session_token)

/-- Model of `MongoHandler.verify_conversation`: dual-filtered `find_one`,
returning whether a document matched; a malformed id raises and is
rewrapped with the `Error:` marker. -/
def verify_conversation (s : DBState) (user_id conversation_id : String) :
    Except String Bool :=
  match oidFromString conversation_id with
  | none => .error ("Error: " ++ invalidIdMsg conversation_id)
  | some oid =>
    .ok (s.conversations.any (fun c => c._id == oid && c.user_id == user_id))

/-- State of the `MongoHandler` class object: `client` holds the uri the
single `MongoClient` was constructed with (`none` before the first call),
and `initCount` counts constructions of the underlying client. -/
structure HandlerClassState where
  client : Option String
  initCount : Nat
  deriving DecidableEq, Repr

/-- Model of `MongoHandler.__new__`: on the first call the instance and
its `MongoClient(uri)` are created; every later call returns the existing
instance unchanged, ignoring the `uri` argument. -/
def MongoHandler_new (st : HandlerClassState) (uri : String) :
    String × HandlerClassState :=
  match st.client with
  | none => (uri, { client := some uri, initCount := st.initCount + 1 })
  | some u => (u, st)

/-- Run a sequence of `MongoHandler(uri)` constructions, collecting the
returned handles and threading the class state. -/
def runConnects (st : HandlerClassState) : List String → List String × HandlerClassState
  | [] => ([], st)
  | uri :: rest =>
    let r := MongoHandler_new st uri
    let rr := runConnects r.2 rest
    (r.1 :: rr.1, rr.2)

/-- Well-formedness of a database state: every stored ObjectId was drawn
from the fresh-id counter (so freshly inserted ids collide with nothing),
and the counter stays inside the 12-byte ObjectId space. -/
def WF (s : DBState) : Prop :=
  s.nextOid < 16 ^ 24 ∧
  (∀ u ∈ s.users, u._id < s.nextOid) ∧
  (∀ c ∈ s.conversations, c._id < s.nextOid)

instance (s : DBState) : Decidable (WF s) := by
  unfold WF; infer_instance

/-- The user-id component of the credential `register_google_user` builds:
the id of the first user matching `google_sub`, or the freshly assigned id
when there is none. -/
def registeredUserId (s : DBState) (google_sub : String) : String :=
  match s.users.find? (fun u => u.google_sub == google_sub) with
  | some u => oidToString u._id
  | none => oidToString s.nextOid

theorem updateFirst_of_forall_neg (p : α → Bool) (f : α → α) (l : List α)
    (h : ∀ x ∈ l, ¬p x) : updateFirst p f l = l := by
  induction l with
  | nil => rfl
  | cons x xs ih =>
    have hx : ¬p x := h x (List.mem_cons_self x xs)
    simp only [updateFirst, if_neg hx]
    rw [ih fun y hy => h y (List.mem_cons_of_mem x hy)]

theorem find?_updateFirst (p : α → Bool) (f : α → α) (l : List α)
    (hf : ∀ x, p x → p (f x)) :
    List.find? p (updateFirst p f l) = (List.find? p l).map f := by
  induction l with
  | nil => rfl
  | cons x xs ih =>
    by_cases hx : p x
    · simp only [updateFirst, if_pos hx]
      rw [List.find?_cons_of_pos _ (hf x hx), List.find?_cons_of_pos _ hx,
        Option.map_some']
    · simp only [updateFirst, if_neg hx]
      rw [List.find?_cons_of_neg _ hx, List.find?_cons_of_neg _ hx, ih]

theorem find?_updateFirst_map_congr (p q : α → Bool) (f : α → α) (g : α → β)
    (l : List α) (hq : ∀ x, q (f x) = q x) (hg : ∀ x, g (f x) = g x) :
    (List.find? q (updateFirst p f l)).map g = (List.find? q l).map g := by
  induction l with
  | nil => rfl
  | cons x xs ih =>
    by_cases hpx : p x
    · simp only [updateFirst, if_pos hpx]
      by_cases hqx : q x
      · rw [List.find?_cons_of_pos _ ((hq x).trans (by simp [hqx])),
          List.find?_cons_of_pos _ hqx, Option.map_some', Option.map_some', hg]
      · rw [List.find?_cons_of_neg _ (by simp [hq x, hqx]),
          List.find?_cons_of_neg _ hqx]
    · simp only [updateFirst, if_neg hpx]
      by_cases hqx : q x
      · rw [List.find?_cons_of_pos _ hqx, List.find?_cons_of_pos _ hqx]
      · rw [List.find?_cons_of_neg _ hqx, List.find?_cons_of_neg _ hqx, ih]

theorem countP_updateFirst (p q : α → Bool) (f : α → α) (l : List α)
    (hq : ∀ x, q (f x) = q x) :
    (updateFirst p f l).countP q = l.countP q := by
  induction l with
  | nil => rfl
  | cons x xs ih =>
    by_cases hpx : p x
    · simp only [updateFirst, if_pos hpx]
      rw [List.countP_cons, List.countP_cons, hq]
    · simp only [updateFirst, if_neg hpx]
      rw [List.countP_cons, List.countP_cons, ih]

/-- A concrete empty database state used to instantiate theorems. -/
def emptyState : DBState :=
  { users := [], conversations := [], nextOid := 0,
    tokens := fun n => "tok" ++ toString n, tokenCtr := 0 }

/-- A concrete user document lacking the `session_token` field. -/
def tokenlessUser : UserDoc :=
  { _id := 3, google_sub := "g", email := "e", session_token := none }

/-- A concrete state holding only `tokenlessUser`. -/
def tokenlessState : DBState := { emptyState with users := [tokenlessUser] }

instance : DecidableEq (Except String Bool) := fun a b =>
  match a, b with
  | .ok x, .ok y => decidable_of_iff (x = y) (by simp)
  | .error x, .error y => decidable_of_iff (x = y) (by simp)
  | .ok _, .error _ => isFalse (by simp)
  | .error _, .ok _ => isFalse (by simp)

/-- C5: after `create(user_id, suggestions)` returns a conversation id,
`get_history(user_id, id)` yields the one-element history holding the
fixed system instruction, and `get_suggestions(user_id, id)` yields
exactly the suggestions passed to `create`, for every `user_id` and
suggestions list (in any well-formed state). -/
theorem C5_create_then_get (s : DBState) (user_id : String)
    (suggestions : List String) (hwf : WF s) :
    get_chat_history (new_conversation s user_id suggestions).2 user_id
        (new_conversation s user_id suggestions).1 =
      .ok [{ role := "system", content := systemInstruction }] ∧
    get_prompt_suggestions (new_conversation s user_id suggestions).2 user_id
        (new_conversation s user_id suggestions).1 = .ok suggestions := by
  have hoid : oidFromString (oidToString s.nextOid) = some s.nextOid :=
    oidFromString_oidToString _ hwf.1
  have hnone : List.find?
      (fun c => c._id == s.nextOid && c.user_id == user_id) s.conversations = none := by
    rw [List.find?_eq_none]
    intro c hc
    have hlt := hwf.2.2 c hc
    simp [Nat.ne_of_lt hlt]
  constructor
  · simp only [new_conversation, get_chat_history, hoid, List.find?_append, hnone,
      Option.none_or]
    simp
  · simp only [new_conversation, get_prompt_suggestions, hoid, List.find?_append, hnone,
      Option.none_or]
    simp

theorem C5_create_then_get_witness :
    WF emptyState ∧
    (get_chat_history (new_conversation emptyState "alice" ["s1", "s2"]).2 "alice"
        (new_conversation emptyState "alice" ["s1", "s2"]).1 =
      .ok [{ role := "system", content := systemInstruction }] ∧
    get_prompt_suggestions (new_conversation emptyState "alice" ["s1", "s2"]).2 "alice"
        (new_conversation emptyState "alice" ["s1", "s2"]).1 = .ok ["s1", "s2"]) :=
  ⟨by decide, C5_create_then_get emptyState "alice" ["s1", "s2"] (by decide)⟩

/-- C6: for an existing conversation owned by `user_id` and any history
list `H`, `update_history(user_id, id, H)` returns `true` and a
subsequent `get_history(user_id, id)` returns exactly `H`. -/
theorem C6_update_then_get (s : DBState) (user_id conversation_id : String)
    (H : List Message) (m : Nat)
    (hoid : oidFromString conversation_id = some m)
    (hmatch : s.conversations.any (fun c => c._id == m && c.user_id == user_id) = true) :
    (update_chat_history s user_id conversation_id H).1 = .ok true ∧
    get_chat_history (update_chat_history s user_id conversation_id H).2
      user_id conversation_id = .ok H := by
  obtain ⟨c, hc, hpc⟩ := List.any_eq_true.mp hmatch
  have hsome : (s.conversations.find?
      (fun c => c._id == m && c.user_id == user_id)).isSome :=
    List.find?_isSome.mpr ⟨c, hc, hpc⟩
  obtain ⟨w, hw⟩ := Option.isSome_iff_exists.mp hsome
  constructor
  · simp only [update_chat_history, hoid, hmatch]
  · simp only [update_chat_history, hoid, get_chat_history]
    rw [find?_updateFirst _ _ _ (by intro x hx; simpa using hx), hw]
    rfl

theorem C6_update_then_get_witness :
    oidFromString (oidToString 0) = some 0 ∧
    ((new_conversation emptyState "alice" []).2.conversations.any
      (fun c => c._id == 0 && c.user_id == "alice")) = true ∧
    ((update_chat_history (new_conversation emptyState "alice" []).2 "alice"
        (oidToString 0) [{ role := "user", content := "hi" }]).1 = .ok true ∧
      get_chat_history (update_chat_history (new_conversation emptyState "alice" []).2
          "alice" (oidToString 0) [{ role := "user", content := "hi" }]).2
        "alice" (oidToString 0) = .ok [{ role := "user", content := "hi" }]) :=
  ⟨by decide, by decide,
   C6_update_then_get (new_conversation emptyState "alice" []).2 "alice"
     (oidToString 0) [{ role := "user", content := "hi" }] 0 (by decide) (by decide)⟩

/-- C7: `update_history` for a well-formed conversation id that matches no
document — the id does not exist, or the conversation belongs to a
different user — returns `false` and leaves the entire database state,
hence every field of every stored conversation, unchanged. -/
theorem C7_update_frame (s : DBState) (user_id conversation_id : String)
    (H : List Message) (m : Nat)
    (hoid : oidFromString conversation_id = some m)
    (hnone : ∀ c ∈ s.conversations, (c._id == m && c.user_id == user_id) = false) :
    update_chat_history s user_id conversation_id H = (.ok false, s) := by
  have hany : s.conversations.any (fun c => c._id == m && c.user_id == user_id) = false := by
    rw [List.any_eq_false]
    intro c hc
    simp [hnone c hc]
  simp only [update_chat_history, hoid, hany]
  rw [updateFirst_of_forall_neg _ _ _ (by intro c hc; simp [hnone c hc])]

theorem C7_update_frame_witness :
    oidFromString (oidToString 5) = some 5 ∧
    (∀ c ∈ (new_conversation emptyState "alice" []).2.conversations,
      (c._id == 5 && c.user_id == "bob") = false) ∧
    update_chat_history (new_conversation emptyState "alice" []).2 "bob"
        (oidToString 5) [] =
      (.ok false, (new_conversation emptyState "alice" []).2) :=
  ⟨by decide, by decide,
   C7_update_frame (new_conversation emptyState "alice" []).2 "bob"
     (oidToString 5) [] 5 (by decide) (by decide)⟩

/-- C8: `register_or_login` with an empty `google_sub` or an empty `email`
raises and leaves the database state — in particular every User record —
unchanged. -/
theorem C8_register_invalid (s : DBState) (google_sub email : String)
    (h : google_sub = "" ∨ email = "") :
    register_google_user s google_sub email = (.error "Exception", s) := by
  unfold register_google_user
  rw [if_pos h]

theorem C8_register_invalid_witness :
    ("" = "" ∨ "a@b.c" = "") ∧
    register_google_user emptyState "" "a@b.c" = (.error "Exception", emptyState) :=
  ⟨Or.inl rfl, C8_register_invalid emptyState "" "a@b.c" (Or.inl rfl)⟩

/-- C9: once the handler class state holds an instance, every later
`MongoHandler(uri)` call returns the same handle and leaves the class
state — in particular the count of underlying client initializations —
unchanged, regardless of the `uri` argument of the later calls. -/
theorem C9_connect_idempotent (st : HandlerClassState) (u : String)
    (h : st.client = some u) (uris : List String) :
    runConnects st uris = (uris.map fun _ => u, st) := by
  induction uris with
  | nil => rfl
  | cons uri rest ih =>
    have hstep : MongoHandler_new st uri = (u, st) := by
      unfold MongoHandler_new
      rw [h]
    simp only [runConnects, hstep, ih, List.map_cons]

theorem C9_connect_idempotent_witness :
    (HandlerClassState.mk (some "mongodb://a") 1).client = some "mongodb://a" ∧
    runConnects (HandlerClassState.mk (some "mongodb://a") 1)
        ["mongodb://b", "mongodb://c"] =
      (["mongodb://a", "mongodb://a"], HandlerClassState.mk (some "mongodb://a") 1) :=
  ⟨rfl, C9_connect_idempotent (HandlerClassState.mk (some "mongodb://a") 1)
    "mongodb://a" rfl ["mongodb://b", "mongodb://c"]⟩

/-- C10: for every stored User document that lacks a `session_token`
field, `verify(user_id, "")` returns `true`: the lookup defaults the
missing stored token to the empty string, which equals the presented
empty-string token. -/
theorem C10_missing_token_verifies_empty (s : DBState) (u : UserDoc)
    (hfind : s.users.find? (fun v => v._id == u._id) = some u)
    (htok : u.session_token = none) (hlt : u._id < 16 ^ 24) :
    verify_auth_token s (oidToString u._id) "" = .ok true := by
  simp only [verify_auth_token, oidFromString_oidToString _ hlt, hfind, htok,
    Option.getD_none]
  rfl

theorem C10_missing_token_verifies_empty_witness :
    tokenlessState.users.find? (fun v => v._id == 3) = some tokenlessUser ∧
    (3 : Nat) < 16 ^ 24 ∧
    verify_auth_token tokenlessState (oidToString 3) "" = .ok true :=
  ⟨by decide, by decide,
   C10_missing_token_verifies_empty tokenlessState tokenlessUser
     (by decide) rfl (by decide)⟩

/-- C2 (counterexample): `verify` is not total — for a malformed
`user_id` such as `"not-an-objectid"`, `verify_auth_token` propagates the
`InvalidId` raised by `ObjectId(user_id)` instead of returning `false`,
because it is the one handler method written without a `try/except`. -/
theorem C2_counterexample :
    verify_auth_token emptyState "not-an-objectid" "t" =
      .error (invalidIdMsg "not-an-objectid") ∧
    verify_auth_token emptyState "not-an-objectid" "t" ≠ .ok false ∧
    verify_auth_token emptyState "not-an-objectid" "t" ≠ .ok true := by
  refine ⟨rfl, ?_, ?_⟩ <;> decide

/-- C2 (amended): `verify(user_id, session_token)` never raises for any
`user_id` that is a well-formed ObjectId string: it returns a boolean,
and in particular `false` whenever no user record carries that id; a
malformed `user_id`, however, raises `InvalidId`. -/
theorem C2_verify_total_on_wellformed (s : DBState)
    (user_id session_token : String) (m : Nat)
    (hoid : oidFromString user_id = some m) :
    (verify_auth_token s user_id session_token = .ok false ∨
      verify_auth_token s user_id session_token = .ok true) ∧
    ((∀ u ∈ s.users, u._id ≠ m) →
      verify_auth_token s user_id session_token = .ok false) := by
  constructor
  · simp only [verify_auth_token, hoid]
    cases hfind : s.users.find? (fun u => u._id == m) with
    | none => exact Or.inl rfl
    | some w =>
      cases hcmp : w.session_token.getD "" == session_token with
      | false => exact Or.inl (by simp [hcmp])
      | true => exact Or.inr (by simp [hcmp])
  · intro habs
    have hfind : s.users.find? (fun u => u._id == m) = none := by
      rw [List.find?_eq_none]
      intro u hu
      simp [habs u hu]
    simp only [verify_auth_token, hoid, hfind]

theorem C2_verify_total_on_wellformed_witness :
    oidFromString (oidToString 7) = some 7 ∧
    ((verify_auth_token emptyState (oidToString 7) "t" = .ok false ∨
       verify_auth_token emptyState (oidToString 7) "t" = .ok true) ∧
     ((∀ u ∈ emptyState.users, u._id ≠ 7) →
       verify_auth_token emptyState (oidToString 7) "t" = .ok false)) :=
  ⟨by decide,
   C2_verify_total_on_wellformed emptyState (oidToString 7) "t" 7 (by decide)⟩

theorem lookup_fails_of_no_match (t : DBState) (uid cid : String) (m : Nat)
    (hoid : oidFromString cid = some m)
    (hall : ∀ c ∈ t.conversations, (c._id == m && c.user_id == uid) = false) :
    get_chat_history t uid cid = .error ("MongoDB error: " ++ noneSubscriptMsg) ∧
    get_prompt_suggestions t uid cid = .error ("MongoDB error: " ++ noneSubscriptMsg) ∧
    verify_conversation t uid cid = .ok false := by
  have hfind : List.find? (fun c => c._id == m && c.user_id == uid) t.conversations = none :=
    List.find?_eq_none.mpr (fun c hc => by simp [hall c hc])
  have hany : (t.conversations.any fun c => c._id == m && c.user_id == uid) = false :=
    List.any_eq_false.mpr (fun c hc => by simp [hall c hc])
  refine ⟨?_, ?_, ?_⟩ <;>
    simp only [get_chat_history, get_prompt_suggestions, verify_conversation,
      hoid, hfind, hany]

/-- C1: a conversation created under `owner` is indistinguishable from a
non-existent one for any other user: `get_history` and `get_suggestions`
fail with exactly the same generic error that a well-formed but absent
conversation id produces, and `verify_ownership` returns `false` in both
cases, so the caller cannot tell "belongs to another user" from "does
not exist". -/
theorem C1_ownership_indistinguishable (s : DBState) (owner other : String)
    (suggestions : List String) (hwf : WF s) (hne : other ≠ owner)
    (cid2 : String) (m2 : Nat) (hoid2 : oidFromString cid2 = some m2)
    (habs : ∀ c ∈ (new_conversation s owner suggestions).2.conversations, c._id ≠ m2) :
    (get_chat_history (new_conversation s owner suggestions).2 other
        (new_conversation s owner suggestions).1 =
      .error ("MongoDB error: " ++ noneSubscriptMsg) ∧
    get_prompt_suggestions (new_conversation s owner suggestions).2 other
        (new_conversation s owner suggestions).1 =
      .error ("MongoDB error: " ++ noneSubscriptMsg) ∧
    verify_conversation (new_conversation s owner suggestions).2 other
        (new_conversation s owner suggestions).1 = .ok false) ∧
    (get_chat_history (new_conversation s owner suggestions).2 other cid2 =
      .error ("MongoDB error: " ++ noneSubscriptMsg) ∧
    get_prompt_suggestions (new_conversation s owner suggestions).2 other cid2 =
      .error ("MongoDB error: " ++ noneSubscriptMsg) ∧
    verify_conversation (new_conversation s owner suggestions).2 other cid2 = .ok false) := by
  have hoid1 : oidFromString (oidToString s.nextOid) = some s.nextOid :=
    oidFromString_oidToString _ hwf.1
  have hall1 : ∀ c ∈ (new_conversation s owner suggestions).2.conversations,
      (c._id == s.nextOid && c.user_id == other) = false := by
    intro c hc
    simp only [new_conversation, List.mem_append, List.mem_singleton] at hc
    rcases hc with hc | rfl
    · have hlt := hwf.2.2 c hc
      simp [Nat.ne_of_lt hlt]
    · simp [Ne.symm hne]
  have hall2 : ∀ c ∈ (new_conversation s owner suggestions).2.conversations,
      (c._id == m2 && c.user_id == other) = false := by
    intro c hc
    simp [habs c hc]
  exact ⟨lookup_fails_of_no_match _ other _ s.nextOid hoid1 hall1,
    lookup_fails_of_no_match _ other cid2 m2 hoid2 hall2⟩

theorem C1_ownership_indistinguishable_witness :
    WF emptyState ∧ ("bob" : String) ≠ "alice" ∧
    oidFromString (oidToString 9) = some 9 ∧
    (∀ c ∈ (new_conversation emptyState "alice" ["s"]).2.conversations, c._id ≠ 9) ∧
    ((get_chat_history (new_conversation emptyState "alice" ["s"]).2 "bob"
        (new_conversation emptyState "alice" ["s"]).1 =
      .error ("MongoDB error: " ++ noneSubscriptMsg) ∧
    get_prompt_suggestions (new_conversation emptyState "alice" ["s"]).2 "bob"
        (new_conversation emptyState "alice" ["s"]).1 =
      .error ("MongoDB error: " ++ noneSubscriptMsg) ∧
    verify_conversation (new_conversation emptyState "alice" ["s"]).2 "bob"
        (new_conversation emptyState "alice" ["s"]).1 = .ok false) ∧
    (get_chat_history (new_conversation emptyState "alice" ["s"]).2 "bob"
        (oidToString 9) = .error ("MongoDB error: " ++ noneSubscriptMsg) ∧
    get_prompt_suggestions (new_conversation emptyState "alice" ["s"]).2 "bob"
        (oidToString 9) = .error ("MongoDB error: " ++ noneSubscriptMsg) ∧
    verify_conversation (new_conversation emptyState "alice" ["s"]).2 "bob"
        (oidToString 9) = .ok false)) :=
  ⟨by decide, by decide, by decide, by decide,
   C1_ownership_indistinguishable emptyState "alice" "bob" ["s"] (by decide)
     (by decide) (oidToString 9) 9 (by decide) (by decide)⟩

theorem verify_false_of_no_user (t : DBState) (uid tok : String) (m : Nat)
    (hoid : oidFromString uid = some m) (habs : ∀ u ∈ t.users, u._id ≠ m) :
    verify_auth_token t uid tok = .ok false := by
  have hfind : t.users.find? (fun u => u._id == m) = none :=
    List.find?_eq_none.mpr (fun u hu => by simp [habs u hu])
  simp only [verify_auth_token, hoid, hfind]

/-- C3: immediately after `register_or_login` returns the credential
`"<user_id>:<session_token>"`, `verify` accepts exactly that pair,
rejects any other token presented for the same `user_id`, and rejects
every well-formed `user_id` that matches no stored user. -/
theorem C3_register_then_verify (s : DBState) (google_sub email : String)
    (hwf : WF s) (hsub : google_sub ≠ "") (hemail : email ≠ "") :
    (register_google_user s google_sub email).1 =
      .ok (registeredUserId s google_sub ++ ":" ++ s.tokens s.tokenCtr) ∧
    verify_auth_token (register_google_user s google_sub email).2
      (registeredUserId s google_sub) (s.tokens s.tokenCtr) = .ok true ∧
    (∀ tok2, tok2 ≠ s.tokens s.tokenCtr →
      verify_auth_token (register_google_user s google_sub email).2
        (registeredUserId s google_sub) tok2 = .ok false) ∧
    (∀ uid2 tok2 m, oidFromString uid2 = some m →
      (∀ u ∈ (register_google_user s google_sub email).2.users, u._id ≠ m) →
      verify_auth_token (register_google_user s google_sub email).2 uid2 tok2 =
        .ok false) := by
  have hcond : ¬(google_sub = "" ∨ email = "") := by
    rintro (h | h)
    · exact hsub h
    · exact hemail h
  cases hfind : s.users.find? (fun u => u.google_sub == google_sub) with
  | some u =>
    have humem : u ∈ s.users := List.mem_of_find?_eq_some hfind
    have hlt : u._id < 16 ^ 24 := lt_trans (hwf.2.1 u humem) hwf.1
    have hoidu : oidFromString (oidToString u._id) = some u._id :=
      oidFromString_oidToString _ hlt
    have hreg : registeredUserId s google_sub = oidToString u._id := by
      unfold registeredUserId
      rw [hfind]
    have hsomep : (s.users.find? (fun v => v._id == u._id)).isSome :=
      List.find?_isSome.mpr ⟨u, humem, by simp⟩
    obtain ⟨w, hw⟩ := Option.isSome_iff_exists.mp hsomep
    simp only [register_google_user, if_neg hcond, hfind, hreg]
    refine ⟨trivial, ?_, ?_, ?_⟩
    · simp only [verify_auth_token, hoidu]
      rw [find?_updateFirst (fun v => v._id == u._id)
        (fun v => { v with session_token := some (s.tokens s.tokenCtr), email := email })
        s.users (fun x hx => hx), hw]
      simp
    · intro tok2 htok2
      simp only [verify_auth_token, hoidu]
      rw [find?_updateFirst (fun v => v._id == u._id)
        (fun v => { v with session_token := some (s.tokens s.tokenCtr), email := email })
        s.users (fun x hx => hx), hw]
      simp only [Option.map_some']
      have : (s.tokens s.tokenCtr == tok2) = false :=
        beq_eq_false_iff_ne.mpr (Ne.symm htok2)
      simp [this]
    · intro uid2 tok2 m hoid2 habs
      exact verify_false_of_no_user _ uid2 tok2 m hoid2 habs
  | none =>
    have hreg : registeredUserId s google_sub = oidToString s.nextOid := by
      unfold registeredUserId
      rw [hfind]
    have hoidn : oidFromString (oidToString s.nextOid) = some s.nextOid :=
      oidFromString_oidToString _ hwf.1
    have hfresh : List.find? (fun v => v._id == s.nextOid) s.users = none :=
      List.find?_eq_none.mpr (fun v hv => by
        simp [Nat.ne_of_lt (hwf.2.1 v hv)])
    simp only [register_google_user, if_neg hcond, hfind, hreg]
    refine ⟨trivial, ?_, ?_, ?_⟩
    · simp only [verify_auth_token, hoidn, List.find?_append, hfresh,
        Option.none_or]
      simp
    · intro tok2 htok2
      simp only [verify_auth_token, hoidn, List.find?_append, hfresh,
        Option.none_or]
      have : (s.tokens s.tokenCtr == tok2) = false :=
        beq_eq_false_iff_ne.mpr (Ne.symm htok2)
      simp [this]
    · intro uid2 tok2 m hoid2 habs
      exact verify_false_of_no_user _ uid2 tok2 m hoid2 habs

theorem C3_register_then_verify_witness :
    WF emptyState ∧ ("g" : String) ≠ "" ∧ ("e" : String) ≠ "" ∧
    ((register_google_user emptyState "g" "e").1 =
      .ok (registeredUserId emptyState "g" ++ ":" ++ emptyState.tokens emptyState.tokenCtr) ∧
    verify_auth_token (register_google_user emptyState "g" "e").2
      (registeredUserId emptyState "g") (emptyState.tokens emptyState.tokenCtr) = .ok true ∧
    (∀ tok2, tok2 ≠ emptyState.tokens emptyState.tokenCtr →
      verify_auth_token (register_google_user emptyState "g" "e").2
        (registeredUserId emptyState "g") tok2 = .ok false) ∧
    (∀ uid2 tok2 m, oidFromString uid2 = some m →
      (∀ u ∈ (register_google_user emptyState "g" "e").2.users, u._id ≠ m) →
      verify_auth_token (register_google_user emptyState "g" "e").2 uid2 tok2 =
        .ok false)) :=
  ⟨by decide, by decide, by decide,
   C3_register_then_verify emptyState "g" "e" (by decide) (by decide) (by decide)⟩

/-- C4: registering the same `google_sub` twice yields credentials whose
user-id component is the same both times and whose session tokens are
the two successive draws of the token supply — distinct whenever the
supply is (the model of fresh 128-bit randomness) — and afterwards the
store holds exactly one User record for that `google_sub`, given that at
most one held it before (the store-level uniqueness invariant). -/
theorem C4_register_twice (s : DBState) (google_sub email1 email2 : String)
    (hsub : google_sub ≠ "") (he1 : email1 ≠ "") (he2 : email2 ≠ "")
    (hcount : s.users.countP (fun u => u.google_sub == google_sub) ≤ 1)
    (htok : s.tokens s.tokenCtr ≠ s.tokens (s.tokenCtr + 1)) :
    (register_google_user s google_sub email1).1 =
      .ok (registeredUserId s google_sub ++ ":" ++ s.tokens s.tokenCtr) ∧
    (register_google_user (register_google_user s google_sub email1).2
        google_sub email2).1 =
      .ok (registeredUserId s google_sub ++ ":" ++ s.tokens (s.tokenCtr + 1)) ∧
    s.tokens s.tokenCtr ≠ s.tokens (s.tokenCtr + 1) ∧
    ((register_google_user (register_google_user s google_sub email1).2
        google_sub email2).2.users.countP
      (fun u => u.google_sub == google_sub)) = 1 := by
  have hcond1 : ¬(google_sub = "" ∨ email1 = "") := by
    rintro (h | h)
    · exact hsub h
    · exact he1 h
  have hcond2 : ¬(google_sub = "" ∨ email2 = "") := by
    rintro (h | h)
    · exact hsub h
    · exact he2 h
  cases hfind : s.users.find? (fun u => u.google_sub == google_sub) with
  | some u =>
    have humem : u ∈ s.users := List.mem_of_find?_eq_some hfind
    have hqu : (u.google_sub == google_sub) = true := by
      have hq := List.find?_some hfind
      simpa using hq
    have hreg : registeredUserId s google_sub = oidToString u._id := by
      unfold registeredUserId
      rw [hfind]
    have hmap : (List.find? (fun v => v.google_sub == google_sub)
        (updateFirst (fun v => v._id == u._id)
          (fun v => { v with session_token := some (s.tokens s.tokenCtr), email := email1 })
          s.users)).map (fun v => v._id) =
        (List.find? (fun v => v.google_sub == google_sub) s.users).map
          (fun v => v._id) :=
      find?_updateFirst_map_congr _ _ _ _ _ (fun x => rfl) (fun x => rfl)
    rw [hfind, Option.map_some'] at hmap
    obtain ⟨w, hw, hwid⟩ := Option.map_eq_some'.mp hmap
    simp only [register_google_user, if_neg hcond1, if_neg hcond2, hfind, hreg,
      hw, hwid]
    refine ⟨trivial, trivial, htok, ?_⟩
    rw [countP_updateFirst (fun v => v._id == u._id)
        (fun v => v.google_sub == google_sub)
        (fun v => { v with session_token := some (s.tokens (s.tokenCtr + 1)), email := email2 })
        (updateFirst (fun v => v._id == u._id)
          (fun v => { v with session_token := some (s.tokens s.tokenCtr), email := email1 })
          s.users)
        (fun x => rfl),
      countP_updateFirst (fun v => v._id == u._id)
        (fun v => v.google_sub == google_sub)
        (fun v => { v with session_token := some (s.tokens s.tokenCtr), email := email1 })
        s.users (fun x => rfl)]
    have hpos : 0 < s.users.countP (fun v => v.google_sub == google_sub) :=
      List.countP_pos_iff.mpr ⟨u, humem, hqu⟩
    omega
  | none =>
    have hq_old : ∀ x ∈ s.users, ¬(x.google_sub == google_sub) = true :=
      List.find?_eq_none.mp hfind
    have hreg : registeredUserId s google_sub = oidToString s.nextOid := by
      unfold registeredUserId
      rw [hfind]
    have hfind2 : List.find? (fun v => v.google_sub == google_sub)
        (s.users ++ [{ _id := s.nextOid, google_sub := google_sub, email := email1, session_token := some (s.tokens s.tokenCtr) }]) =
        some { _id := s.nextOid, google_sub := google_sub, email := email1, session_token := some (s.tokens s.tokenCtr) } := by
      rw [List.find?_append, List.find?_eq_none.mpr hq_old, Option.none_or]
      exact List.find?_cons_of_pos _ (by simp)
    simp only [register_google_user, if_neg hcond1, if_neg hcond2, hfind, hreg,
      hfind2]
    refine ⟨trivial, trivial, htok, ?_⟩
    have hcnt2 : List.countP (fun u => u.google_sub == google_sub)
        (updateFirst (fun u => u._id == s.nextOid)
          (fun u => { u with session_token := some (s.tokens (s.tokenCtr + 1)), email := email2 })
          (s.users ++ [{ _id := s.nextOid, google_sub := google_sub, email := email1, session_token := some (s.tokens s.tokenCtr) }])) =
        List.countP (fun u => u.google_sub == google_sub)
          (s.users ++ [{ _id := s.nextOid, google_sub := google_sub, email := email1, session_token := some (s.tokens s.tokenCtr) }]) :=
      countP_updateFirst _ _ _ _ (fun x => rfl)
    rw [hcnt2, List.countP_append, List.countP_eq_zero.mpr hq_old]
    simp

theorem C4_register_twice_witness :
    ("g" : String) ≠ "" ∧ ("e1" : String) ≠ "" ∧ ("e2" : String) ≠ "" ∧
    emptyState.users.countP (fun u => u.google_sub == "g") ≤ 1 ∧
    emptyState.tokens emptyState.tokenCtr ≠
      emptyState.tokens (emptyState.tokenCtr + 1) ∧
    ((register_google_user emptyState "g" "e1").1 =
      .ok (registeredUserId emptyState "g" ++ ":" ++
        emptyState.tokens emptyState.tokenCtr) ∧
    (register_google_user (register_google_user emptyState "g" "e1").2
        "g" "e2").1 =
      .ok (registeredUserId emptyState "g" ++ ":" ++
        emptyState.tokens (emptyState.tokenCtr + 1)) ∧
    emptyState.tokens emptyState.tokenCtr ≠
      emptyState.tokens (emptyState.tokenCtr + 1) ∧
    ((register_google_user (register_google_user emptyState "g" "e1").2
        "g" "e2").2.users.countP (fun u => u.google_sub == "g")) = 1) :=
  ⟨by decide, by decide, by decide, by decide, by decide,
   C4_register_twice emptyState "g" "e1" "e2" (by decide) (by decide)
     (by decide) (by decide) (by decide)⟩

end Askage
